import Mathlib

/-!
Verification development for the NanoBanana image-generation service
(`app.py` HTTP gateway / relay, `core.py` browser-automation engine).

Strings that only flow through byte-oriented primitives (the base64
token utilities and the relay's scheme check) are modelled as their
UTF-8 byte sequences, `List Nat` with every element `< 256`; Python's
`str.encode("utf-8")` / `bytes.decode("utf-8")` round-trip is the
identity on that representation.  JSON payloads captured from the
network are modelled by an inductive `Json` type; text handled by the
JSON searches is modelled by Lean `String`.
-/

namespace NanoBanana

/-! ### Base64 (url-safe) token utilities, from `app.py`

`_encode_url` is `base64.urlsafe_b64encode(url.encode("utf-8"))`;
`_decode_url` first applies the padding correction
(`padding = 4 - len(token) % 4; if padding != 4: token += "=" * padding`)
and then `base64.urlsafe_b64decode`.  Bytes and token characters are
`Nat` ASCII codes; `61` is the code of the padding character. -/

/-- The url-safe base64 alphabet: sextet value to ASCII code
(`A-Z`, `a-z`, `0-9`, `-`, `_`). -/
def b64char (n : Nat) : Nat :=
  if n < 26 then 65 + n
  else if n < 52 then 97 + (n - 26)
  else if n < 62 then 48 + (n - 52)
  else if n = 62 then 45
  else 95

/-- Inverse of the url-safe base64 alphabet: ASCII code to sextet value,
`none` for characters outside the alphabet (incl. the padding `=`). -/
def b64val (c : Nat) : Option Nat :=
  if 65 ≤ c ∧ c ≤ 90 then some (c - 65)
  else if 97 ≤ c ∧ c ≤ 122 then some (c - 97 + 26)
  else if 48 ≤ c ∧ c ≤ 57 then some (c - 48 + 52)
  else if c = 45 then some 62
  else if c = 95 then some 63
  else none

/-- `base64.urlsafe_b64encode`: bytes to token characters, three input
bytes per four output characters, `=`-padded (code 61). -/
def b64encode : List Nat → List Nat
  | [] => []
  | [a] => [b64char (a / 4), b64char (a % 4 * 16), 61, 61]
  | [a, b] => [b64char (a / 4), b64char (a % 4 * 16 + b / 16), b64char (b % 16 * 4), 61]
  | a :: b :: c :: rest =>
      b64char (a / 4) :: b64char (a % 4 * 16 + b / 16) ::
      b64char (b % 16 * 4 + c / 64) :: b64char (c % 64) :: b64encode rest

/-- `base64.urlsafe_b64decode` on a token whose length is a multiple of
four: groups of four characters to three bytes, `=` (code 61) allowed
only as trailing padding.  `none` models `binascii.Error`. -/
def b64decodeChunks : List Nat → Option (List Nat)
  | [] => some []
  | c1 :: c2 :: c3 :: c4 :: rest =>
      (b64val c1).bind fun v1 =>
      (b64val c2).bind fun v2 =>
      if c3 = 61 then
        if c4 = 61 ∧ rest = [] then some [v1 * 4 + v2 / 16] else none
      else
        (b64val c3).bind fun v3 =>
        if c4 = 61 then
          if rest = [] then some [v1 * 4 + v2 / 16, v2 % 16 * 16 + v3 / 4] else none
        else
          (b64val c4).bind fun v4 =>
          (b64decodeChunks rest).map fun tail =>
            (v1 * 4 + v2 / 16) :: (v2 % 16 * 16 + v3 / 4) :: (v3 % 4 * 64 + v4) :: tail
  | _ => none

/-- `_encode_url` from `app.py` (on the UTF-8 bytes of the url). -/
def encode_url (url : List Nat) : List Nat := b64encode url

/-- `_decode_url` from `app.py`: padding correction, then base64
decoding; `none` models a raised exception. -/
def decode_url (tok : List Nat) : Option (List Nat) :=
  let padding := 4 - tok.length % 4
  let t := if padding ≠ 4 then tok ++ List.replicate padding 61 else tok
  b64decodeChunks t

/-! ### JSON payloads and the recursive searches from `core.py`

`resp.json()` values are nested JSON; Python dicts preserve insertion
order.  Arrays and objects are represented first-order by their own
spine constructors: the array `[x, y]` is `arrCons x (arrCons y
arrNil)` and the dict `{k: v, ...}` is `objCons k v (...)`, i.e. the
ordered sequence of items / entries. -/

inductive Json where
  | str (s : String)
  | num (n : Int)
  | bool (b : Bool)
  | null
  | arrNil
  | arrCons (head : Json) (tail : Json)
  | objNil
  | objCons (key : String) (val : Json) (tail : Json)

/-- The candidate key set of `_find_task_id`. -/
def TASK_KEYS : List String :=
  ["taskId", "task_id", "id", "jobId", "job_id",
   "requestId", "generationId", "uuid", "token"]

/-- One dict-entry test of `_find_task_id`:
`k in _keys and isinstance(v, str) and len(v) > 5`, yielding the value. -/
def keyHit (k : String) (v : Json) : Option String :=
  match v with
  | Json.str s => if k ∈ TASK_KEYS ∧ 5 < s.length then some s else none
  | _ => none

/-- `_find_task_id` from `core.py`: dicts entry by entry (entry test,
then recursion into the value), lists item by item; scalars yield
nothing. -/
def find_task_id : Json → Option String
  | Json.objCons k v rest =>
      match keyHit k v with
      | some s => some s
      | none =>
          match find_task_id v with
          | some r => some r
          | none => find_task_id rest
  | Json.arrCons j rest =>
      match find_task_id j with
      | some r => some r
      | none => find_task_id rest
  | _ => none

/-- All `_find_task_id` hits of a payload, in the search's traversal
order (per dict entry: the entry's own test, then the hits inside its
value, then the later entries; lists item by item). -/
def taskHits : Json → List String
  | Json.objCons k v rest => (keyHit k v).toList ++ taskHits v ++ taskHits rest
  | Json.arrCons j rest => taskHits j ++ taskHits rest
  | _ => []

/-- Python `needle in hay` substring containment. -/
def strContains (hay needle : String) : Bool :=
  hay.toList.tails.any fun t => needle.toList.isPrefixOf t

/-- Python `s.startswith(pre)`. -/
def pyStartsWith (s pre : String) : Bool := pre.toList.isPrefixOf s.toList

/-- Python `s.endswith(suf)`. -/
def pyEndsWith (s suf : String) : Bool :=
  suf.toList.reverse.isPrefixOf s.toList.reverse

/-- `EXTS` from `_find_image_url`. -/
def IMG_EXTS : List String := [".png", ".jpg", ".jpeg", ".webp"]

/-- The string test of `_find_image_url`: contains the host substring,
or is a secure url with a known image extension. -/
def imgCond (v : String) : Bool :=
  strContains v "image.nanobanana" ||
    (pyStartsWith v "https://" && IMG_EXTS.any fun e => pyEndsWith v e)

/-- One dict-entry test of `_find_image_url`:
`isinstance(v, str) and (...)`, yielding the value. -/
def strHit (v : Json) : Option String :=
  match v with
  | Json.str s => if imgCond s then some s else none
  | _ => none

/-- `_find_image_url` from `core.py`.  Only dict *values* are tested:
the list branch recurses into each item, and a bare string item reaches
the scalar fallthrough untested. -/
def find_image_url : Json → Option String
  | Json.objCons _ v rest =>
      match strHit v with
      | some s => some s
      | none =>
          match find_image_url v with
          | some r => some r
          | none => find_image_url rest
  | Json.arrCons j rest =>
      match find_image_url j with
      | some r => some r
      | none => find_image_url rest
  | _ => none

/-- All `_find_image_url` hits of a payload, in traversal order. -/
def imageHits : Json → List String
  | Json.objCons _ v rest => (strHit v).toList ++ imageHits v ++ imageHits rest
  | Json.arrCons j rest => imageHits j ++ imageHits rest
  | _ => []

/-! ### Captured network events and the completion poll
(`core.py generate`, step 9 and result assembly) -/

/-- One captured network response: the listener appends
`{"t": "generate", "d": resp.json()}` or `{"t": "query", ...}`. -/
structure Event where
  t : String
  d : Json

/-- Outcome of running a Python block: a value, or a raised exception
carrying its message. -/
inductive PyResult (α : Type) where
  | val (a : α)
  | exn (msg : String)

/-- Lines 345-350 of `core.py`: scan the captured events for the first
`"generate"`-kind payload containing a task id. -/
def searchTaskId : List Event → Option String
  | [] => none
  | ev :: rest =>
      if ev.t = "generate" then
        match find_task_id ev.d with
        | some s => some s
        | none => searchTaskId rest
      else searchTaskId rest

/-- Lines 353-358: scan the captured events for the first
`"query"`-kind payload containing an image url. -/
def findQueryImage : List Event → Option String
  | [] => none
  | ev :: rest =>
      if ev.t = "query" then
        match find_image_url ev.d with
        | some u => some u
        | none => findQueryImage rest
      else findQueryImage rest

/-- Lines 363-373, the DOM `<img>` fallback: `dom = none` models the
locator or `get_attribute` raising (swallowed by the bare `except`);
`dom = some src` models `src = img.get_attribute("src") or ""`. -/
def dom_check (dom : Option String) : Option String :=
  match dom with
  | none => none
  | some src =>
      if pyStartsWith src "http" ∧ 40 < src.length then some src else none

/-- One poll iteration's image search (lines 352-373): the query events
are scanned first, and the DOM fallback is consulted only when they
yield nothing. -/
def poll_step (events : List Event) (dom : Option String) : Option String :=
  match findQueryImage events with
  | some u => some u
  | none => dom_check dom

/-- `GEN_TIMEOUT = 210` from `core.py`. -/
def GEN_TIMEOUT : Nat := 210

/-- The poll loop's `time.sleep(2)` interval, in seconds. -/
def POLL_SLEEP : Nat := 2

/-- The `TimeoutError` message raised on budget exhaustion (line 378). -/
def timeoutMessage : String :=
  "Image generation timed out after " ++ toString GEN_TIMEOUT ++
    " seconds. Please try again."

/-- What one poll iteration observes: `int(time.time() - start)` at the
loop head, the events captured so far, and the DOM inspection outcome. -/
structure PollObs where
  elapsed : Nat
  events : List Event
  dom : Option String

/-- Line 346: the task id is (re)searched only while it is still
`None`. -/
def updateTid (tid : Option String) (events : List Event) : Option String :=
  match tid with
  | none => searchTaskId events
  | some s => some s

/-- The completion poll (lines 335-381), driven by a trace of
per-iteration observations; yields the image url with the accumulated
task id, the raised `TimeoutError`, or `none` if the trace ran out with
the loop still going (a real run always reaches the budget). -/
def runPoll (tid : Option String) :
    List PollObs → Option (PyResult (String × Option String))
  | [] => none
  | o :: rest =>
      if GEN_TIMEOUT ≤ o.elapsed then some (PyResult.exn timeoutMessage)
      else
        let tid2 := updateTid tid o.events
        match poll_step o.events o.dom with
        | some url => some (PyResult.val (url, tid2))
        | none => runPoll tid2 rest

/-- Python truthiness of `task_id or "unknown"` (line 386). -/
def pyOrUnknown : Option String → String
  | none => "unknown"
  | some s => if s = "" then "unknown" else s

/-- `prompt[:2000]` (line 309). -/
def pySlice2000 (s : String) : String := String.mk (s.data.take 2000)

/-- The task id reported for a given event set: the search of lines
345-350 with line 386's fallback. -/
def resolved_task_id (events : List Event) : String :=
  pyOrUnknown (searchTaskId events)

/-- The result record returned by `core.generate` (lines 383-390). -/
structure GenResult where
  success : Bool
  image_url : String
  task_id : String
  model : String
  aspect : String
  prompt : String

/-- `ASPECT_MAP` keys from `core.py` (also the Gateway's valid set). -/
def ASPECT_KEYS : List String :=
  ["1:1", "2:3", "3:2", "3:4", "4:3", "4:5", "5:4", "9:16", "16:9", "21:9"]

/-- `sorted(ASPECT_MAP.keys())`, Python's code-point order. -/
def ASPECT_KEYS_SORTED : List String :=
  ["16:9", "1:1", "21:9", "2:3", "3:2", "3:4", "4:3", "4:5", "5:4", "9:16"]

/-- `VALID_MODELS` keys from `core.py`. -/
def MODEL_KEYS : List String := ["nano-banana-pro", "nano-banana"]

/-- The Core's own parameter validation (`core.py` lines 133-142);
`some msg` models a raised `ValueError`. -/
def core_validate (aspect model : String) : Option String :=
  if aspect ∈ ASPECT_KEYS then
    if model ∈ MODEL_KEYS then none
    else
      some ("Invalid model '" ++ model ++ "'. Valid options: " ++
        String.intercalate ", " MODEL_KEYS)
  else
    some ("Invalid aspect ratio '" ++ aspect ++ "'. Valid options: " ++
      String.intercalate ", " ASPECT_KEYS_SORTED)

/-- `core.generate` as a function of the validated inputs and the
poll-loop observation trace: parameter validation (lines 133-142),
prompt truncation (line 309), the completion poll, the timeout raise
(lines 377-381) and result assembly (lines 383-390).  `PyResult.exn`
carries the `ValueError` or `TimeoutError` message; `none` means the
trace ended with the poll still running. -/
def core_generate (prompt aspect model : String) (tr : List PollObs) :
    Option (PyResult GenResult) :=
  match core_validate aspect model with
  | some msg => some (PyResult.exn msg)
  | none =>
      match runPoll none tr with
      | none => none
      | some (PyResult.exn m) => some (PyResult.exn m)
      | some (PyResult.val (url, tid)) =>
          some (PyResult.val
            { success := true
              image_url := url
              task_id := pyOrUnknown tid
              model := model
              aspect := aspect
              prompt := pySlice2000 prompt })

/-! ### Request gateway validation (`app.py generate_image`) -/

/-- Outcome of the Gateway's validation phase: a 400 error response
(no Core invocation), or the `core_generate(...)` call with the
validated triple. -/
inductive GatewayOutcome where
  | err400 (msg hint : String)
  | coreCall (prompt aspect model : String)

/-- `generate_image` validation, lines 220-257 of `app.py`: the four
checks run in order on the stripped parameters; each failure returns a
400 error before the Core is invoked. -/
def gateway_validate (prompt aspect model : String) : GatewayOutcome :=
  if prompt = "" then
    GatewayOutcome.err400 "The 'prompt' parameter is required."
      "Add ?prompt=your image description"
  else if 2000 < prompt.length then
    GatewayOutcome.err400 "Prompt exceeds maximum length of 2000 characters."
      ("Current length: " ++ toString prompt.length ++ " characters.")
  else if aspect ∈ ASPECT_KEYS then
    if model ∈ MODEL_KEYS then GatewayOutcome.coreCall prompt aspect model
    else
      GatewayOutcome.err400 ("Invalid model: '" ++ model ++ "'.")
        ("Valid options: " ++ String.intercalate ", " MODEL_KEYS)
  else
    GatewayOutcome.err400 ("Invalid aspect ratio: '" ++ aspect ++ "'.")
      ("Valid options: " ++ String.intercalate ", " ASPECT_KEYS_SORTED)

/-! ### Media relay (`app.py proxy_image`) -/

/-- The ASCII/UTF-8 bytes of the "https://" scheme. -/
def httpsBytes : List Nat := [104, 116, 116, 112, 115, 58, 47, 47]

/-- The relay's decision: 400 "Invalid image token." (decode failed),
400 "Invalid image URL." (scheme check failed, no outbound request),
or the outbound `requests.get(real_url)`. -/
inductive RelayAction where
  | badToken
  | badUrl
  | fetch (url : List Nat)

/-- `proxy_image`, lines 298-319 of `app.py`, up to the outbound-fetch
decision, on the UTF-8 bytes of the decoded url. -/
def relay_decide (tok : List Nat) : RelayAction :=
  match decode_url tok with
  | none => RelayAction.badToken
  | some url =>
      if httpsBytes.isPrefixOf url then RelayAction.fetch url
      else RelayAction.badUrl

/-! ### Ephemeral credentials (`core.py _random_credentials`)

The random draws (`random.choices`, `random.randint`, the shuffled
character list) are parameters of the embedding; what the `random`
module guarantees about them becomes hypotheses of the theorem. -/

/-- ASCII lowercase letter. -/
def isAsciiLower (c : Char) : Bool := 97 ≤ c.toNat && c.toNat ≤ 122

/-- ASCII uppercase letter. -/
def isAsciiUpper (c : Char) : Bool := 65 ≤ c.toNat && c.toNat ≤ 90

/-- ASCII digit. -/
def isAsciiDigit (c : Char) : Bool := 48 ≤ c.toNat && c.toNat ≤ 57

/-- ASCII `chr(ord('0') + d)`. -/
def digitChar (d : Nat) : Char := Char.ofNat (48 + d)

/-- Decimal digits of a number, as written by the f-string. -/
def natDigits (n : Nat) : List Char :=
  if n < 10 then [digitChar n]
  else natDigits (n / 10) ++ [digitChar (n % 10)]
decreasing_by exact Nat.div_lt_self (by omega) (by omega)

/-- Python `str.lower` on one ASCII character. -/
def pyToLower (c : Char) : Char :=
  if 65 ≤ c.toNat ∧ c.toNat ≤ 90 then Char.ofNat (c.toNat + 32) else c

/-- Python `str.upper` on one ASCII character. -/
def pyToUpper (c : Char) : Char :=
  if 97 ≤ c.toNat ∧ c.toNat ≤ 122 then Char.ofNat (c.toNat - 32) else c

/-- Python `str.capitalize`: first character uppercased, the rest
lowercased. -/
def pyCapitalize : List Char → List Char
  | [] => []
  | c :: rest => pyToUpper c :: rest.map pyToLower

/-- The credential triple returned by `_random_credentials`. -/
structure Credentials where
  email : List Char
  password : List Char
  name : List Char

/-- `_random_credentials` (lines 50-61 of `core.py`) as a function of
its random draws: `slug = random.choices(ascii_lowercase, k=8)`,
`num = random.randint(10, 9999)`, and `shuffled` the 2+5+3 character
list after `random.shuffle`. -/
def random_credentials (slug : List Char) (num : Nat) (shuffled : List Char) :
    Credentials :=
  { email := slug ++ natDigits num ++ ("@gmail.com").data
    password := shuffled
    name := pyCapitalize slug }

/-- The credential shape stated by the spec (claim C8), written from
the spec's words to be checked against `random_credentials`: the email
local part is an 8-lowercase-letter handle followed by a 2-to-4-digit
number, the password is 10 characters with exactly 2 uppercase, 5
lowercase and 3 digits, and the display name is the handle with its
first letter capitalized. -/
def specCredShape (cr : Credentials) : Prop :=
  (∃ handle ds,
      cr.email = handle ++ ds ++ ("@gmail.com").data ∧
      handle.length = 8 ∧ (∀ c ∈ handle, isAsciiLower c = true) ∧
      2 ≤ ds.length ∧ ds.length ≤ 4 ∧ (∀ c ∈ ds, isAsciiDigit c = true) ∧
      (∀ c cs, handle = c :: cs → cr.name = pyToUpper c :: cs)) ∧
  cr.password.length = 10 ∧
  cr.password.countP (fun c => isAsciiUpper c) = 2 ∧
  cr.password.countP (fun c => isAsciiLower c) = 5 ∧
  cr.password.countP (fun c => isAsciiDigit c) = 3

/-! ### Teardown (`core.py generate`, the `try/finally`) -/

/-- Python `try: body finally: fin`: the body's outcome stands unless
the `finally` block itself raises, in which case that exception
replaces it. -/
def tryFinally {α : Type} (body : PyResult α) (fin : PyResult Unit) : PyResult α :=
  match fin with
  | PyResult.val _ => body
  | PyResult.exn e => PyResult.exn e

/-- Python `try: b except Exception: pass`: every exception of `b` is
swallowed. -/
def tryExceptPass (b : PyResult Unit) : PyResult Unit :=
  match b with
  | PyResult.val _ => PyResult.val ()
  | PyResult.exn _ => PyResult.val ()

/-- Lines 183-396 of `core.py`: the whole automation body runs inside
`try: ... finally: try: browser.close() except Exception: pass`.
The first component is the outcome delivered to the caller; the second
records that the close was attempted on this exit path. -/
def generate_teardown (body : PyResult GenResult) (closeResult : PyResult Unit) :
    PyResult GenResult × Bool :=
  (tryFinally body (tryExceptPass closeResult), true)

/-! ## Helper lemmas -/

theorem b64val_b64char : ∀ n, n < 64 → b64val (b64char n) = some n := by decide

theorem b64char_ne_pad : ∀ n, n < 64 → b64char n ≠ 61 := by decide

theorem b64encode_length_mod (s : List Nat) : (b64encode s).length % 4 = 0 := by
  induction s using b64encode.induct with
  | case1 => simp [b64encode]
  | case2 a => simp [b64encode]
  | case3 a b => simp [b64encode]
  | case4 a b c rest ih => simp [b64encode]; omega

theorem b64decode_b64encode (s : List Nat) (hs : ∀ b ∈ s, b < 256) :
    b64decodeChunks (b64encode s) = some s := by
  induction s using b64encode.induct with
  | case1 => simp [b64encode, b64decodeChunks]
  | case2 a =>
      have ha : a < 256 := hs a (by simp)
      have h1 : a / 4 < 64 := by omega
      have h2 : a % 4 * 16 < 64 := by omega
      simp [b64encode, b64decodeChunks, b64val_b64char _ h1, b64val_b64char _ h2]
      omega
  | case3 a b =>
      have ha : a < 256 := hs a (by simp)
      have hb : b < 256 := hs b (by simp)
      have h1 : a / 4 < 64 := by omega
      have h2 : a % 4 * 16 + b / 16 < 64 := by omega
      have h3 : b % 16 * 4 < 64 := by omega
      have hne3 : b64char (b % 16 * 4) ≠ 61 := b64char_ne_pad _ h3
      simp [b64encode, b64decodeChunks, b64val_b64char _ h1, b64val_b64char _ h2,
        b64val_b64char _ h3, hne3]
      omega
  | case4 a b c rest ih =>
      have ha : a < 256 := hs a (by simp)
      have hb : b < 256 := hs b (by simp)
      have hc : c < 256 := hs c (by simp)
      have hrest : ∀ x ∈ rest, x < 256 := fun x hx => hs x (by simp [hx])
      have h1 : a / 4 < 64 := by omega
      have h2 : a % 4 * 16 + b / 16 < 64 := by omega
      have h3 : b % 16 * 4 + c / 64 < 64 := by omega
      have h4 : c % 64 < 64 := by omega
      have hne3 : b64char (b % 16 * 4 + c / 64) ≠ 61 := b64char_ne_pad _ h3
      have hne4 : b64char (c % 64) ≠ 61 := b64char_ne_pad _ h4
      simp [b64encode, b64decodeChunks, b64val_b64char _ h1, b64val_b64char _ h2,
        b64val_b64char _ h3, b64val_b64char _ h4, hne3, hne4, ih hrest]
      refine ⟨by omega, by omega, by omega⟩

theorem find_task_id_eq_head (j : Json) : find_task_id j = (taskHits j).head? := by
  induction j with
  | str s => rfl
  | num n => rfl
  | bool b => rfl
  | null => rfl
  | arrNil => rfl
  | arrCons hd tl ihh iht =>
      cases hh : find_task_id hd with
      | some r =>
          have h2 : (taskHits hd).head? = some r := ihh.symm.trans hh
          simp [find_task_id, taskHits, hh, h2]
      | none =>
          have h2 : (taskHits hd).head? = none := ihh.symm.trans hh
          simp [find_task_id, taskHits, hh, h2, iht]
  | objNil => rfl
  | objCons k v tl ihv iht =>
      cases hk : keyHit k v with
      | some s => simp [find_task_id, taskHits, hk]
      | none =>
          cases hv : find_task_id v with
          | some r =>
              have h2 : (taskHits v).head? = some r := ihv.symm.trans hv
              simp [find_task_id, taskHits, hk, hv, h2]
          | none =>
              have h2 : (taskHits v).head? = none := ihv.symm.trans hv
              simp [find_task_id, taskHits, hk, hv, h2, iht]

theorem find_image_url_eq_head (j : Json) : find_image_url j = (imageHits j).head? := by
  induction j with
  | str s => rfl
  | num n => rfl
  | bool b => rfl
  | null => rfl
  | arrNil => rfl
  | arrCons hd tl ihh iht =>
      cases hh : find_image_url hd with
      | some r =>
          have h2 : (imageHits hd).head? = some r := ihh.symm.trans hh
          simp [find_image_url, imageHits, hh, h2]
      | none =>
          have h2 : (imageHits hd).head? = none := ihh.symm.trans hh
          simp [find_image_url, imageHits, hh, h2, iht]
  | objNil => rfl
  | objCons k v tl ihv iht =>
      cases hk : strHit v with
      | some s => simp [find_image_url, imageHits, hk]
      | none =>
          cases hv : find_image_url v with
          | some r =>
              have h2 : (imageHits v).head? = some r := ihv.symm.trans hv
              simp [find_image_url, imageHits, hk, hv, h2]
          | none =>
              have h2 : (imageHits v).head? = none := ihv.symm.trans hv
              simp [find_image_url, imageHits, hk, hv, h2, iht]

theorem keyHit_length {k : String} {v : Json} {s : String}
    (h : keyHit k v = some s) : 5 < s.length := by
  cases v with
  | str t =>
      simp only [keyHit] at h
      by_cases hc : k ∈ TASK_KEYS ∧ 5 < t.length
      · rw [if_pos hc] at h
        cases h
        exact hc.2
      · rw [if_neg hc] at h
        cases h
  | num n => cases h
  | bool b => cases h
  | null => cases h
  | arrNil => cases h
  | arrCons hd tl => cases h
  | objNil => cases h
  | objCons k2 v2 tl => cases h

theorem strHit_cond {v : Json} {s : String} (h : strHit v = some s) :
    imgCond s = true := by
  cases v with
  | str t =>
      simp only [strHit] at h
      by_cases hc : imgCond t = true
      · rw [if_pos hc] at h
        cases h
        exact hc
      · rw [if_neg hc] at h
        cases h
  | num n => cases h
  | bool b => cases h
  | null => cases h
  | arrNil => cases h
  | arrCons hd tl => cases h
  | objNil => cases h
  | objCons k2 v2 tl => cases h

theorem find_task_id_length {j : Json} :
    ∀ {s : String}, find_task_id j = some s → 5 < s.length := by
  induction j with
  | str t => intro s h; cases h
  | num n => intro s h; cases h
  | bool b => intro s h; cases h
  | null => intro s h; cases h
  | arrNil => intro s h; cases h
  | arrCons hd tl ihh iht =>
      intro s h
      simp only [find_task_id] at h
      cases hh : find_task_id hd with
      | some r =>
          rw [hh] at h
          cases h
          exact ihh hh
      | none =>
          rw [hh] at h
          exact iht h
  | objNil => intro s h; cases h
  | objCons k v tl ihv iht =>
      intro s h
      simp only [find_task_id] at h
      cases hk : keyHit k v with
      | some r =>
          rw [hk] at h
          cases h
          exact keyHit_length hk
      | none =>
          rw [hk] at h
          cases hv : find_task_id v with
          | some r =>
              rw [hv] at h
              cases h
              exact ihv hv
          | none =>
              rw [hv] at h
              exact iht h

theorem find_image_url_cond {j : Json} :
    ∀ {s : String}, find_image_url j = some s → imgCond s = true := by
  induction j with
  | str t => intro s h; cases h
  | num n => intro s h; cases h
  | bool b => intro s h; cases h
  | null => intro s h; cases h
  | arrNil => intro s h; cases h
  | arrCons hd tl ihh iht =>
      intro s h
      simp only [find_image_url] at h
      cases hh : find_image_url hd with
      | some r =>
          rw [hh] at h
          cases h
          exact ihh hh
      | none =>
          rw [hh] at h
          exact iht h
  | objNil => intro s h; cases h
  | objCons k v tl ihv iht =>
      intro s h
      simp only [find_image_url] at h
      cases hk : strHit v with
      | some r =>
          rw [hk] at h
          cases h
          exact strHit_cond hk
      | none =>
          rw [hk] at h
          cases hv : find_image_url v with
          | some r =>
              rw [hv] at h
              cases h
              exact ihv hv
          | none =>
              rw [hv] at h
              exact iht h

theorem imgCond_ne_empty {s : String} (h : imgCond s = true) : s ≠ "" := by
  intro he
  subst he
  exact absurd h (by decide)

theorem searchTaskId_some {evs : List Event} {s : String}
    (h : searchTaskId evs = some s) :
    5 < s.length ∧ ∃ ev ∈ evs, ev.t = "generate" ∧ find_task_id ev.d = some s := by
  induction evs with
  | nil => simp [searchTaskId] at h
  | cons ev rest ih =>
      simp only [searchTaskId] at h
      by_cases ht : ev.t = "generate"
      · rw [if_pos ht] at h
        cases hf : find_task_id ev.d with
        | some r =>
            rw [hf] at h
            cases h
            exact ⟨find_task_id_length hf, ev, by simp, ht, hf⟩
        | none =>
            rw [hf] at h
            obtain ⟨hl, ev2, hmem, h1, h2⟩ := ih h
            exact ⟨hl, ev2, by simp [hmem], h1, h2⟩
      · rw [if_neg ht] at h
        obtain ⟨hl, ev2, hmem, h1, h2⟩ := ih h
        exact ⟨hl, ev2, by simp [hmem], h1, h2⟩

theorem findQueryImage_cond {evs : List Event} {u : String}
    (h : findQueryImage evs = some u) : imgCond u = true := by
  induction evs with
  | nil => simp [findQueryImage] at h
  | cons ev rest ih =>
      simp only [findQueryImage] at h
      by_cases ht : ev.t = "query"
      · rw [if_pos ht] at h
        cases hf : find_image_url ev.d with
        | some r =>
            rw [hf] at h
            cases h
            exact find_image_url_cond hf
        | none =>
            rw [hf] at h
            exact ih h
      · rw [if_neg ht] at h
        exact ih h

theorem string_length_ne {s : String} {n : Nat} (hn : n < s.length) : s ≠ "" := by
  intro he
  subst he
  simp at hn

theorem dom_check_some {dom : Option String} {s : String}
    (h : dom_check dom = some s) :
    pyStartsWith s "http" = true ∧ 40 < s.length := by
  cases dom with
  | none => simp [dom_check] at h
  | some src =>
      simp only [dom_check] at h
      by_cases hc : pyStartsWith src "http" = true ∧ 40 < src.length
      · rw [if_pos hc] at h
        cases h
        exact hc
      · rw [if_neg hc] at h
        cases h

theorem poll_step_ne_empty {events : List Event} {dom : Option String} {u : String}
    (h : poll_step events dom = some u) : u ≠ "" := by
  unfold poll_step at h
  cases hq : findQueryImage events with
  | some r =>
      rw [hq] at h
      cases h
      exact imgCond_ne_empty (findQueryImage_cond hq)
  | none =>
      rw [hq] at h
      exact string_length_ne (dom_check_some h).2

theorem runPoll_exn {tid : Option String} {tr : List PollObs} {m : String}
    (h : runPoll tid tr = some (PyResult.exn m)) :
    m = timeoutMessage ∧ ∃ o ∈ tr, GEN_TIMEOUT ≤ o.elapsed := by
  induction tr generalizing tid with
  | nil => simp [runPoll] at h
  | cons o rest ih =>
      simp only [runPoll] at h
      by_cases he : GEN_TIMEOUT ≤ o.elapsed
      · rw [if_pos he] at h
        cases h
        exact ⟨rfl, o, by simp, he⟩
      · rw [if_neg he] at h
        cases hp : poll_step o.events o.dom with
        | some url => rw [hp] at h; cases h
        | none =>
            rw [hp] at h
            obtain ⟨hm, o2, hmem, hle⟩ := ih h
            exact ⟨hm, o2, by simp [hmem], hle⟩

theorem runPoll_val {tid : Option String} {tr : List PollObs} {url : String}
    {tid2 : Option String}
    (h : runPoll tid tr = some (PyResult.val (url, tid2))) :
    (∃ o ∈ tr, poll_step o.events o.dom = some url) ∧
    (tid2 = tid ∨ ∃ o ∈ tr, searchTaskId o.events = tid2) := by
  induction tr generalizing tid with
  | nil => simp [runPoll] at h
  | cons o rest ih =>
      simp only [runPoll] at h
      by_cases he : GEN_TIMEOUT ≤ o.elapsed
      · rw [if_pos he] at h
        cases h
      · rw [if_neg he] at h
        cases hp : poll_step o.events o.dom with
        | some u =>
            rw [hp] at h
            cases h
            refine ⟨⟨o, by simp, hp⟩, ?_⟩
            cases htid : tid with
            | some s => left; simp [updateTid, htid]
            | none => right; exact ⟨o, by simp, by simp [updateTid, htid]⟩
        | none =>
            rw [hp] at h
            obtain ⟨⟨o2, hmem, hps⟩, htid⟩ := ih h
            refine ⟨⟨o2, by simp [hmem], hps⟩, ?_⟩
            cases htid with
            | inr hex =>
                obtain ⟨o3, hmem3, hs⟩ := hex
                exact Or.inr ⟨o3, by simp [hmem3], hs⟩
            | inl heq =>
                cases ht : tid with
                | some s => left; rw [heq, ht]; simp [updateTid]
                | none =>
                    right
                    refine ⟨o, by simp, ?_⟩
                    rw [heq, ht]
                    simp [updateTid]

theorem pySlice2000_of_le {s : String} (h : s.length ≤ 2000) :
    pySlice2000 s = s := by
  unfold pySlice2000
  have : s.data.take 2000 = s.data := List.take_of_length_le h
  rw [this]

theorem pySlice2000_ne {s : String} (h : 2000 < s.length) :
    pySlice2000 s ≠ s := by
  intro he
  have hlen : (pySlice2000 s).length = 2000 := by
    show (s.data.take 2000).length = 2000
    rw [List.length_take]
    have : s.length = s.data.length := rfl
    omega
  rw [he] at hlen
  omega

theorem natDigits_ne_nil (n : Nat) : natDigits n ≠ [] := by
  unfold natDigits
  split
  · simp
  · simp

theorem natDigits_le1 (n : Nat) (h : n ≤ 9) : (natDigits n).length ≤ 1 := by
  unfold natDigits
  rw [if_pos (by omega)]
  simp

theorem natDigits_le2 (n : Nat) (h : n ≤ 99) : (natDigits n).length ≤ 2 := by
  unfold natDigits
  by_cases h10 : n < 10
  · rw [if_pos h10]; simp
  · rw [if_neg h10]
    have := natDigits_le1 (n / 10) (by omega)
    simp
    omega

theorem natDigits_le3 (n : Nat) (h : n ≤ 999) : (natDigits n).length ≤ 3 := by
  unfold natDigits
  by_cases h10 : n < 10
  · rw [if_pos h10]; simp
  · rw [if_neg h10]
    have := natDigits_le2 (n / 10) (by omega)
    simp
    omega

theorem natDigits_le4 (n : Nat) (h : n ≤ 9999) : (natDigits n).length ≤ 4 := by
  unfold natDigits
  by_cases h10 : n < 10
  · rw [if_pos h10]; simp
  · rw [if_neg h10]
    have := natDigits_le3 (n / 10) (by omega)
    simp
    omega

theorem natDigits_ge2 (n : Nat) (h : 10 ≤ n) : 2 ≤ (natDigits n).length := by
  unfold natDigits
  rw [if_neg (by omega)]
  have h1 : natDigits (n / 10) ≠ [] := natDigits_ne_nil (n / 10)
  have h2 : 0 < (natDigits (n / 10)).length := List.length_pos.mpr h1
  simp
  omega

theorem digitChar_isDigit : ∀ d, d < 10 → isAsciiDigit (digitChar d) = true := by
  decide

theorem natDigits_digits (n : Nat) : ∀ c ∈ natDigits n, isAsciiDigit c = true := by
  induction n using natDigits.induct with
  | case1 n h =>
      intro c hc
      unfold natDigits at hc
      rw [if_pos h] at hc
      simp at hc
      subst hc
      exact digitChar_isDigit n h
  | case2 n h ih =>
      intro c hc
      unfold natDigits at hc
      rw [if_neg h] at hc
      rw [List.mem_append] at hc
      cases hc with
      | inl hc => exact ih c hc
      | inr hc =>
          simp at hc
          subst hc
          exact digitChar_isDigit _ (Nat.mod_lt _ (by omega))

theorem lower_not_upper {c : Char} (h : isAsciiLower c = true) :
    isAsciiUpper c = false := by
  simp [isAsciiLower] at h
  simp [isAsciiUpper]
  omega

theorem lower_not_digit {c : Char} (h : isAsciiLower c = true) :
    isAsciiDigit c = false := by
  simp [isAsciiLower] at h
  simp [isAsciiDigit]
  omega

theorem upper_not_lower {c : Char} (h : isAsciiUpper c = true) :
    isAsciiLower c = false := by
  simp [isAsciiUpper] at h
  simp [isAsciiLower]
  omega

theorem upper_not_digit {c : Char} (h : isAsciiUpper c = true) :
    isAsciiDigit c = false := by
  simp [isAsciiUpper] at h
  simp [isAsciiDigit]
  omega

theorem digit_not_lower {c : Char} (h : isAsciiDigit c = true) :
    isAsciiLower c = false := by
  simp [isAsciiDigit] at h
  simp [isAsciiLower]
  omega

theorem digit_not_upper {c : Char} (h : isAsciiDigit c = true) :
    isAsciiUpper c = false := by
  simp [isAsciiDigit] at h
  simp [isAsciiUpper]
  omega

theorem countP_all {p : Char → Bool} {l : List Char} (h : ∀ c ∈ l, p c = true) :
    l.countP p = l.length :=
  List.countP_eq_length.mpr h

theorem countP_none {p : Char → Bool} {l : List Char} (h : ∀ c ∈ l, p c = false) :
    l.countP p = 0 := by
  rw [List.countP_eq_zero]
  intro a ha
  simp [h a ha]

theorem map_pyToLower_id {l : List Char} (h : ∀ c ∈ l, isAsciiLower c = true) :
    l.map pyToLower = l := by
  induction l with
  | nil => rfl
  | cons c t ih =>
      have hc := h c (by simp)
      have hc2 : ¬(65 ≤ c.toNat ∧ c.toNat ≤ 90) := by
        simp [isAsciiLower] at hc
        omega
      have heq : pyToLower c = c := by
        unfold pyToLower
        rw [if_neg hc2]
      simp only [List.map_cons, heq]
      rw [ih fun x hx => h x (by simp [hx])]

/-! ## Claims -/

/-- **C1.**  Decoding the token produced by encoding any locator
reproduces the locator byte-for-byte: the encoder emits four token
characters per three input bytes (`=`-padding included), so its output
length is a multiple of four, the decoder's padding correction leaves
the token unchanged, and base64 decoding inverts the encoding. -/
theorem c1_encode_decode_roundtrip (s : List Nat) (hs : ∀ b ∈ s, b < 256) :
    decode_url (encode_url s) = some s := by
  have hlen := b64encode_length_mod s
  unfold decode_url encode_url
  simp only [hlen]
  simpa using b64decode_b64encode s hs

theorem c1_witness :
    decode_url (encode_url [104, 116, 116, 112, 115]) = some [104, 116, 116, 112, 115] :=
  c1_encode_decode_roundtrip [104, 116, 116, 112, 115] (by decide)

/-- **C2, counterexample.**  On an event whose payload holds no
recognized task id, the reported identifier is the string "unknown",
not "unspecified" as the claim states. -/
theorem c2_counterexample :
    resolved_task_id
        [⟨"generate", Json.objCons "prompt" (Json.str "whatever") Json.objNil⟩] =
      "unknown" ∧
    ("unknown" : String) ≠ "unspecified" := by
  constructor
  · rfl
  · decide

/-- **C2 (amended).**  The task-identifier search returns the first
string value of length > 5 found under one of the 9 recognized key
names, depth-first in dict-key order then list order (`taskHits`
enumerates exactly those hits in that traversal order); when no such
value exists in the scanned events, the reported task identifier is the
string "unknown" (the code never produces "unspecified"). -/
theorem c2_task_search :
    (∀ j : Json, find_task_id j = (taskHits j).head?) ∧
    (∀ evs : List Event,
        searchTaskId evs = none → resolved_task_id evs = "unknown") := by
  constructor
  · exact find_task_id_eq_head
  · intro evs h
    simp [resolved_task_id, h, pyOrUnknown]

theorem c2_witness : resolved_task_id [] = "unknown" :=
  c2_task_search.2 [] rfl

/-- **C3, counterexample.**  A string that is a direct element of a list
satisfies the image condition yet is not found: the list branch recurses
into the bare string, which falls through the scalar case untested. -/
theorem c3_counterexample :
    find_image_url (Json.arrCons (Json.str "https://e.com/a.png") Json.arrNil) = none ∧
    imgCond "https://e.com/a.png" = true := by
  constructor
  · rfl
  · decide

/-- **C3 (amended).**  The image-locator search returns the first string
value satisfying the condition under the same depth-first,
dict-then-list traversal as the task-id search, but only strings that
are dict values are tested (`imageHits` enumerates exactly those):
a bare string — at the root or as a direct list element — is never
examined, contrary to the claim's "any string value anywhere". -/
theorem c3_image_search :
    (∀ j : Json, find_image_url j = (imageHits j).head?) ∧
    (∀ s : String, find_image_url (Json.str s) = none) ∧
    (∀ (s : String) (rest : Json),
        find_image_url (Json.arrCons (Json.str s) rest) = find_image_url rest) := by
  exact ⟨find_image_url_eq_head, fun s => rfl, fun s rest => rfl⟩

/-- **C4.**  In a poll iteration, a locator found in the captured
"query"-kind events is the iteration's result for every possible DOM
observation — the DOM fallback cannot override it, so whenever both a
query-event match and a DOM match exist, the query-event match wins. -/
theorem c4_query_event_wins (events : List Event) (dom : Option String)
    (u : String) (h : findQueryImage events = some u) :
    poll_step events dom = some u := by
  simp [poll_step, h]

theorem c4_witness :
    poll_step
      [⟨"query",
        Json.objCons "url" (Json.str "https://cdn.example.com/img/a.png") Json.objNil⟩]
      (some "https://dom.example.com/ai-generated/another-image-0123456789.png") =
      some "https://cdn.example.com/img/a.png" :=
  c4_query_event_wins _ _ _ (by rfl)

/-- **C5.**  The completion poll sleeps 2 seconds per iteration under
the 210-second budget `GEN_TIMEOUT`; the only exception escaping the
poll is the `TimeoutError` whose message names the budget ("...after
210 seconds..."), it is raised only once an iteration starts with
elapsed time at or past the budget, and it is never raised while every
observed elapsed time is still below the budget (transient absence of a
result does not raise). -/
theorem c5_poll_timeout :
    POLL_SLEEP = 2 ∧ GEN_TIMEOUT = 210 ∧
    strContains timeoutMessage "after 210 seconds" = true ∧
    (∀ (tid : Option String) (tr : List PollObs) (m : String),
        runPoll tid tr = some (PyResult.exn m) →
        m = timeoutMessage ∧ ∃ o ∈ tr, GEN_TIMEOUT ≤ o.elapsed) ∧
    (∀ (tid : Option String) (tr : List PollObs),
        (∀ o ∈ tr, o.elapsed < GEN_TIMEOUT) →
        ∀ m : String, runPoll tid tr ≠ some (PyResult.exn m)) := by
  refine ⟨rfl, rfl, by decide, fun tid tr m h => runPoll_exn h, ?_⟩
  intro tid tr hlt m h
  obtain ⟨-, o, hmem, hle⟩ := runPoll_exn h
  have := hlt o hmem
  omega

theorem c5_witness :
    timeoutMessage = timeoutMessage ∧
    ∃ o ∈ [PollObs.mk 210 [] none], GEN_TIMEOUT ≤ o.elapsed :=
  c5_poll_timeout.2.2.2.1 none [PollObs.mk 210 [] none] timeoutMessage (by rfl)

/-- **C6.**  An empty prompt, an over-long prompt, an unknown aspect or
an unknown model each make the Gateway answer 400 without reaching the
Core; any triple the Gateway forwards passes the Core's own validation
silently; and the Core raises `ValueError` exactly on an invalid aspect
or model. -/
theorem c6_validation :
    (∀ prompt aspect model : String,
        prompt = "" ∨ 2000 < prompt.length ∨
          aspect ∉ ASPECT_KEYS ∨ model ∉ MODEL_KEYS →
        ∃ msg hint, gateway_validate prompt aspect model =
          GatewayOutcome.err400 msg hint) ∧
    (∀ prompt aspect model p a m : String,
        gateway_validate prompt aspect model = GatewayOutcome.coreCall p a m →
        core_validate a m = none) ∧
    (∀ aspect model : String,
        aspect ∉ ASPECT_KEYS ∨ model ∉ MODEL_KEYS →
        ∃ msg, core_validate aspect model = some msg) := by
  refine ⟨?_, ?_, ?_⟩
  · intro p a m h
    unfold gateway_validate
    by_cases hp : p = ""
    · rw [if_pos hp]; exact ⟨_, _, rfl⟩
    · rw [if_neg hp]
      by_cases hl : 2000 < p.length
      · rw [if_pos hl]; exact ⟨_, _, rfl⟩
      · rw [if_neg hl]
        by_cases ha : a ∈ ASPECT_KEYS
        · rw [if_pos ha]
          have hm : m ∉ MODEL_KEYS := by
            rcases h with h | h | h | h
            · exact absurd h hp
            · exact absurd h hl
            · exact absurd ha h
            · exact h
          rw [if_neg hm]
          exact ⟨_, _, rfl⟩
        · rw [if_neg ha]; exact ⟨_, _, rfl⟩
  · intro p a m p2 a2 m2 h
    unfold gateway_validate at h
    by_cases hp : p = ""
    · rw [if_pos hp] at h; cases h
    · rw [if_neg hp] at h
      by_cases hl : 2000 < p.length
      · rw [if_pos hl] at h; cases h
      · rw [if_neg hl] at h
        by_cases ha : a ∈ ASPECT_KEYS
        · rw [if_pos ha] at h
          by_cases hm : m ∈ MODEL_KEYS
          · rw [if_pos hm] at h
            injection h with h1 h2 h3
            subst h2
            subst h3
            unfold core_validate
            rw [if_pos ha, if_pos hm]
          · rw [if_neg hm] at h; cases h
        · rw [if_neg ha] at h; cases h
  · intro a m h
    unfold core_validate
    by_cases ha : a ∈ ASPECT_KEYS
    · rw [if_pos ha]
      have hm : m ∉ MODEL_KEYS := by
        rcases h with h | h
        · exact absurd ha h
        · exact h
      rw [if_neg hm]
      exact ⟨_, rfl⟩
    · rw [if_neg ha]
      exact ⟨_, rfl⟩

theorem c6_witness :
    (∃ msg hint, gateway_validate "" "1:1" "nano-banana-pro" =
      GatewayOutcome.err400 msg hint) ∧
    core_validate "1:1" "nano-banana-pro" = none ∧
    (∃ msg, core_validate "5:5" "nano-banana-pro" = some msg) :=
  ⟨c6_validation.1 "" "1:1" "nano-banana-pro" (Or.inl rfl),
   c6_validation.2.1 "hi" "1:1" "nano-banana-pro" "hi" "1:1" "nano-banana-pro" rfl,
   c6_validation.2.2 "5:5" "nano-banana-pro" (Or.inl (by decide))⟩

/-- **C7.**  A token that decodes to bytes not starting with
"https://" makes the Relay answer 400 with no outbound fetch, and the
outbound fetch is issued only for decoded urls starting with
"https://". -/
theorem c7_relay_scheme :
    (∀ tok url : List Nat,
        decode_url tok = some url →
        httpsBytes.isPrefixOf url = false →
        relay_decide tok = RelayAction.badUrl) ∧
    (∀ tok url : List Nat,
        relay_decide tok = RelayAction.fetch url →
        httpsBytes.isPrefixOf url = true) := by
  constructor
  · intro tok url h hn
    simp [relay_decide, h, hn]
  · intro tok url h
    cases hd : decode_url tok with
    | none => simp [relay_decide, hd] at h
    | some u =>
        by_cases hp : httpsBytes.isPrefixOf u = true
        · simp [relay_decide, hd, hp] at h
          subst h
          exact hp
        · simp [relay_decide, hd, hp] at h

theorem c7_witness :
    relay_decide [89, 87, 74, 106] = RelayAction.badUrl :=
  c7_relay_scheme.1 [89, 87, 74, 106] [97, 98, 99] (by decide) (by decide)

/-- **C8.**  Under the guarantees of the random draws (8 lowercase
letters, a number in 10..9999, 2 uppercase + 5 lowercase + 3 digit
characters shuffled), the generated credentials have the stated shape:
the email local part is the 8-lowercase handle followed by a 2-to-4
digit number, the password is 10 characters with exactly 2 uppercase,
5 lowercase and 3 digits, and the display name is the handle with its
first letter capitalized. -/
theorem c8_credentials
    (slug : List Char) (num : Nat) (upp low dig shuffled : List Char)
    (hslen : slug.length = 8) (hslow : ∀ c ∈ slug, isAsciiLower c = true)
    (hnum1 : 10 ≤ num) (hnum2 : num ≤ 9999)
    (hulen : upp.length = 2) (hup : ∀ c ∈ upp, isAsciiUpper c = true)
    (hllen : low.length = 5) (hlow : ∀ c ∈ low, isAsciiLower c = true)
    (hdlen : dig.length = 3) (hdig : ∀ c ∈ dig, isAsciiDigit c = true)
    (hperm : shuffled.Perm (upp ++ low ++ dig)) :
    specCredShape (random_credentials slug num shuffled) := by
  unfold specCredShape
  refine ⟨?_, ?_, ?_, ?_, ?_⟩
  · refine ⟨slug, natDigits num, rfl, hslen, hslow,
      natDigits_ge2 num hnum1, natDigits_le4 num hnum2, natDigits_digits num, ?_⟩
    intro c cs hsl
    have hcs : ∀ x ∈ cs, isAsciiLower x = true := fun x hx =>
      hslow x (by rw [hsl]; exact List.mem_cons_of_mem _ hx)
    show pyCapitalize slug = pyToUpper c :: cs
    rw [hsl]
    show pyToUpper c :: cs.map pyToLower = pyToUpper c :: cs
    rw [map_pyToLower_id hcs]
  · show shuffled.length = 10
    rw [hperm.length_eq]
    simp [hulen, hllen, hdlen]
  · show shuffled.countP (fun c => isAsciiUpper c) = 2
    rw [hperm.countP_eq, List.countP_append, List.countP_append,
      countP_all hup,
      countP_none (fun c hc => lower_not_upper (hlow c hc)),
      countP_none (fun c hc => digit_not_upper (hdig c hc))]
    omega
  · show shuffled.countP (fun c => isAsciiLower c) = 5
    rw [hperm.countP_eq, List.countP_append, List.countP_append,
      countP_all hlow,
      countP_none (fun c hc => upper_not_lower (hup c hc)),
      countP_none (fun c hc => digit_not_lower (hdig c hc))]
    omega
  · show shuffled.countP (fun c => isAsciiDigit c) = 3
    rw [hperm.countP_eq, List.countP_append, List.countP_append,
      countP_all hdig,
      countP_none (fun c hc => upper_not_digit (hup c hc)),
      countP_none (fun c hc => lower_not_digit (hlow c hc))]
    omega

theorem c8_witness :
    specCredShape (random_credentials ("abcdefgh").data 1234
      (("AB").data ++ ("cdefg").data ++ ("123").data)) :=
  c8_credentials ("abcdefgh").data 1234 ("AB").data ("cdefg").data ("123").data
    (("AB").data ++ ("cdefg").data ++ ("123").data)
    (by decide) (by decide) (by decide) (by decide) (by decide) (by decide)
    (by decide) (by decide) (by decide) (by decide) (List.Perm.refl _)

/-- **C9.**  Whatever the automation body's outcome (a successful
record, a `ValueError`, the `TimeoutError`, or any other exception) and
whatever `browser.close()` does, the teardown attempts the close and
delivers exactly the body's outcome: a failing close is swallowed and
never replaces the original result. -/
theorem c9_teardown (body : PyResult GenResult) (closeResult : PyResult Unit) :
    generate_teardown body closeResult = (body, true) := by
  cases closeResult with
  | val u => rfl
  | exn e => rfl

/-- **C10.**  Every successful return of the Core's generate carries
`success = true`, the requested model and aspect, the prompt truncated
to its first 2000 characters (hence differing from an over-long
input), a non-empty image locator, and a task id that is either the
literal "unknown" or a string of length > 5 extracted by the task-id
search from a "generate"-kind event of the observed trace. -/
theorem c10_success_record
    (prompt aspect model : String) (tr : List PollObs) (r : GenResult)
    (h : core_generate prompt aspect model tr = some (PyResult.val r)) :
    r.success = true ∧ r.model = model ∧ r.aspect = aspect ∧
    r.prompt = pySlice2000 prompt ∧
    (2000 < prompt.length → r.prompt ≠ prompt) ∧
    r.image_url ≠ "" ∧
    (r.task_id = "unknown" ∨
      (5 < r.task_id.length ∧
        ∃ o ∈ tr, ∃ ev ∈ o.events, ev.t = "generate" ∧
          find_task_id ev.d = some r.task_id)) := by
  unfold core_generate at h
  cases hv : core_validate aspect model with
  | some msg => rw [hv] at h; cases h
  | none =>
      rw [hv] at h
      cases hrp : runPoll none tr with
      | none => rw [hrp] at h; cases h
      | some pr =>
          rw [hrp] at h
          cases pr with
          | exn m => cases h
          | val p =>
              obtain ⟨url, tid⟩ := p
              cases h
              obtain ⟨⟨o, hmem, hps⟩, htid⟩ := runPoll_val hrp
              refine ⟨rfl, rfl, rfl, rfl, fun hl => pySlice2000_ne hl,
                poll_step_ne_empty hps, ?_⟩
              rcases htid with heq | ⟨o2, hmem2, hs⟩
              · left
                show pyOrUnknown tid = "unknown"
                rw [heq]
                rfl
              · cases tid with
                | none => left; rfl
                | some s =>
                    right
                    obtain ⟨hlen5, ev, hevmem, hgen, hfind⟩ := searchTaskId_some hs
                    have hne : s ≠ "" := string_length_ne hlen5
                    have hpy : pyOrUnknown (some s) = s := by
                      simp [pyOrUnknown, hne]
                    show 5 < (pyOrUnknown (some s)).length ∧ _
                    rw [hpy]
                    exact ⟨hlen5, o2, hmem2, ev, hevmem, hgen, hfind⟩

theorem c10_witness :
    (let r : GenResult :=
      { success := true
        image_url := "https://pics.example.com/out.png"
        task_id := "abc123xyz"
        model := "nano-banana-pro"
        aspect := "1:1"
        prompt := pySlice2000 "hi" }
     let tr : List PollObs :=
      [⟨0, [⟨"generate", Json.objCons "taskId" (Json.str "abc123xyz") Json.objNil⟩,
            ⟨"query",
             Json.objCons "url" (Json.str "https://pics.example.com/out.png")
               Json.objNil⟩],
        none⟩]
     r.success = true ∧ r.model = "nano-banana-pro" ∧ r.aspect = "1:1" ∧
     r.prompt = pySlice2000 "hi" ∧
     (2000 < ("hi" : String).length → r.prompt ≠ "hi") ∧
     r.image_url ≠ "" ∧
     (r.task_id = "unknown" ∨
       (5 < r.task_id.length ∧
         ∃ o ∈ tr, ∃ ev ∈ o.events, ev.t = "generate" ∧
           find_task_id ev.d = some r.task_id))) :=
  c10_success_record "hi" "1:1" "nano-banana-pro"
    [⟨0, [⟨"generate", Json.objCons "taskId" (Json.str "abc123xyz") Json.objNil⟩,
          ⟨"query",
           Json.objCons "url" (Json.str "https://pics.example.com/out.png")
             Json.objNil⟩],
      none⟩]
    { success := true
      image_url := "https://pics.example.com/out.png"
      task_id := "abc123xyz"
      model := "nano-banana-pro"
      aspect := "1:1"
      prompt := pySlice2000 "hi" }
    (by rfl)

end NanoBanana
